import Mathlib

/-!
Verification of the CoPTask layer of the mc_rtc task library
(include/mc_tasks/CoPTask.h and its specification).

Machine `double` scalars are modelled as exact rationals; Eigen vectors
become record types; `sva::PTransformd` becomes a rotation matrix plus a
translation; `sva::ForceVecd` becomes a couple/force pair.  Operations that
are inline in CoPTask.h are translated directly from the header; operations
whose bodies live in the (absent) CoPTask.cpp / AdmittanceTask.cpp are
modelled from the specification and say so in their doc comment.
-/

/-- 2D vector over exact rationals (models Eigen::Vector2d). -/
structure Vec2 where
  x : ℚ
  y : ℚ
deriving DecidableEq, Repr

/-- 3D vector over exact rationals (models Eigen::Vector3d). -/
structure Vec3 where
  x : ℚ
  y : ℚ
  z : ℚ
deriving DecidableEq, Repr

def Vec2.zero : Vec2 := ⟨0, 0⟩

def Vec3.zero : Vec3 := ⟨0, 0, 0⟩

def Vec2.sub (a b : Vec2) : Vec2 := ⟨a.x - b.x, a.y - b.y⟩

def Vec3.add (a b : Vec3) : Vec3 := ⟨a.x + b.x, a.y + b.y, a.z + b.z⟩

def Vec3.sub (a b : Vec3) : Vec3 := ⟨a.x - b.x, a.y - b.y, a.z - b.z⟩

/-- Cross product of 3D vectors. -/
def Vec3.cross (a b : Vec3) : Vec3 :=
  ⟨a.y * b.z - a.z * b.y, a.z * b.x - a.x * b.z, a.x * b.y - a.y * b.x⟩

/-- 3×3 matrix over exact rationals (models Eigen::Matrix3d). -/
structure Mat3 where
  m00 : ℚ
  m01 : ℚ
  m02 : ℚ
  m10 : ℚ
  m11 : ℚ
  m12 : ℚ
  m20 : ℚ
  m21 : ℚ
  m22 : ℚ
deriving DecidableEq, Repr

def Mat3.one : Mat3 := ⟨1, 0, 0, 0, 1, 0, 0, 0, 1⟩

def Mat3.zero : Mat3 := ⟨0, 0, 0, 0, 0, 0, 0, 0, 0⟩

def Mat3.transpose (m : Mat3) : Mat3 :=
  ⟨m.m00, m.m10, m.m20, m.m01, m.m11, m.m21, m.m02, m.m12, m.m22⟩

def Mat3.mul (a b : Mat3) : Mat3 :=
  ⟨a.m00 * b.m00 + a.m01 * b.m10 + a.m02 * b.m20,
   a.m00 * b.m01 + a.m01 * b.m11 + a.m02 * b.m21,
   a.m00 * b.m02 + a.m01 * b.m12 + a.m02 * b.m22,
   a.m10 * b.m00 + a.m11 * b.m10 + a.m12 * b.m20,
   a.m10 * b.m01 + a.m11 * b.m11 + a.m12 * b.m21,
   a.m10 * b.m02 + a.m11 * b.m12 + a.m12 * b.m22,
   a.m20 * b.m00 + a.m21 * b.m10 + a.m22 * b.m20,
   a.m20 * b.m01 + a.m21 * b.m11 + a.m22 * b.m21,
   a.m20 * b.m02 + a.m21 * b.m12 + a.m22 * b.m22⟩

def Mat3.mulVec (m : Mat3) (v : Vec3) : Vec3 :=
  ⟨m.m00 * v.x + m.m01 * v.y + m.m02 * v.z,
   m.m10 * v.x + m.m11 * v.y + m.m12 * v.z,
   m.m20 * v.x + m.m21 * v.y + m.m22 * v.z⟩

/-- A rotation matrix is orthonormal: its transpose is a two-sided inverse. -/
def Mat3.IsOrthonormal (r : Mat3) : Prop :=
  Mat3.mul r (Mat3.transpose r) = Mat3.one ∧ Mat3.mul (Mat3.transpose r) r = Mat3.one

instance (r : Mat3) : Decidable (Mat3.IsOrthonormal r) := by
  unfold Mat3.IsOrthonormal; infer_instance

/-- Spatial rigid transform: rotation + translation (models sva::PTransformd). -/
structure PTransform where
  rotation : Mat3
  translation : Vec3
deriving DecidableEq, Repr

def PTransform.identity : PTransform := ⟨Mat3.one, Vec3.zero⟩

/-- Spatial force vector: couple (moment) + force (models sva::ForceVecd). -/
structure ForceVec where
  couple : Vec3
  force : Vec3
deriving DecidableEq, Repr

def ForceVec.zero : ForceVec := ⟨Vec3.zero, Vec3.zero⟩

/-- Modelled from the spec: the admittance gain, a linear map from 6D wrench
error to 6D velocity correction, block-diagonal into an angular (torque →
angular velocity) sub-block and a linear (force → linear velocity) sub-block.
The concrete gain representation lives in the absent AdmittanceTask sources. -/
structure AdmittanceGain where
  angular : Mat3
  linear : Mat3
deriving DecidableEq, Repr

/-- Modelled from the spec: the state owned by AdmittanceTask (absent
AdmittanceTask.h/.cpp): a target pose, a target wrench setpoint, a configured
admittance gain, and the controlled surface name. -/
structure AdmittanceTaskState where
  surfaceName : String
  targetPose : PTransform
  targetWrench_ : ForceVec
  admittance_ : AdmittanceGain
deriving DecidableEq, Repr

/-- State of a CoPTask: the inherited AdmittanceTask state plus the two
private members of CoPTask.h (lines 149-150), with their in-class
initializers captured by CoPTask.init below. -/
structure CoPTaskState where
  adm : AdmittanceTaskState
  targetCoP_ : Vec2
  targetForce_ : Vec3
deriving DecidableEq, Repr

/-- Modelled from the spec: the external robot/sensor model, reduced to the
queries CoPTask uses — body controlled through a surface, presence of a
force/torque sensor on a body, and the surface-to-world pose. -/
structure RobotModel where
  bodyOfSurface : String → String
  hasSensor : String → Bool
  surfacePose : String → PTransform

namespace AdmittanceTask

/-- Modelled from the spec: AdmittanceTask::targetWrench(w) sets the wrench
setpoint (spec §4.1: targetWrench(w) / targetWrench() get/set the setpoint). -/
def setTargetWrench (s : AdmittanceTaskState) (w : ForceVec) : AdmittanceTaskState :=
  { s with targetWrench_ := w }

/-- Modelled from the spec: AdmittanceTask::reset() sets TargetPose to the
currently measured end-effector pose and TargetWrench to zero (spec §4.1). -/
def reset (s : AdmittanceTaskState) (measuredPose : PTransform) : AdmittanceTaskState :=
  { s with targetPose := measuredPose, targetWrench_ := ForceVec.zero }

end AdmittanceTask

namespace CoPTask

/-- Getter CoPTask::targetCoP() (CoPTask.h lines 96-99). -/
def targetCoP (s : CoPTaskState) : Vec2 := s.targetCoP_

/-- Setter CoPTask::targetCoP(v) (CoPTask.h lines 117-120): assigns the
targetCoP_ member. -/
def setTargetCoP (s : CoPTaskState) (v : Vec2) : CoPTaskState :=
  { s with targetCoP_ := v }

/-- Getter CoPTask::targetForce() (CoPTask.h lines 125-128). -/
def targetForce (s : CoPTaskState) : Vec3 := s.targetForce_

/-- Setter CoPTask::targetForce(f) (CoPTask.h lines 135-138): assigns the
targetForce_ member. -/
def setTargetForce (s : CoPTaskState) (f : Vec3) : CoPTaskState :=
  { s with targetForce_ := f }

/-- Getter CoPTask::targetWrench() (CoPTask.h lines 143-146): returns the
wrench held by the underlying AdmittanceTask. -/
def targetWrench (s : CoPTaskState) : ForceVec := s.adm.targetWrench_

/-- CoPTask::setZeroTargetWrench() (CoPTask.h lines 87-91), translated
line by line: AdmittanceTask::targetWrench(zero); targetCoP(zero). -/
def setZeroTargetWrench (s : CoPTaskState) : CoPTaskState :=
  setTargetCoP { s with adm := AdmittanceTask.setTargetWrench s.adm ForceVec.zero } Vec2.zero

/-- CoPTask::targetCoPW() (CoPTask.h lines 104-110), translated line by line:
cop_s := (targetCoP_, 0); X_0_s := robot.surfacePose(surface);
return X_0_s.translation + X_0_s.rotation.transpose * cop_s. -/
def targetCoPW (s : CoPTaskState) (robot : RobotModel) : Vec3 :=
  let cop_s : Vec3 := ⟨s.targetCoP_.x, s.targetCoP_.y, 0⟩
  let X_0_s : PTransform := robot.surfacePose s.adm.surfaceName
  Vec3.add X_0_s.translation (Mat3.mulVec (Mat3.transpose X_0_s.rotation) cop_s)

/-- Modelled from the spec (§4.2, Normal state; the body of CoPTask::update in
the absent CoPTask.cpp): derive the target wrench from the targets —
force = TargetForce, moment = TargetForce × (TargetCoP_x, TargetCoP_y, 0),
the 2D CoP placed in the surface plane (z = 0), cross product about the
surface origin. -/
def derivedWrench (f : Vec3) (c : Vec2) : ForceVec :=
  { couple := Vec3.cross f ⟨c.x, c.y, 0⟩, force := f }

/-- Modelled from the spec (§4.2 pressure state machine, §9: a pure function
of (measured pressure, configured gain) → (effective gain)): when the
measured normal force is below epsilon the rotational (torque-tracking)
sub-block of the admittance gain is forced to zero for this cycle; otherwise
the configured gain is used unmodified. -/
def effectiveGain (pressure epsilon : ℚ) (g : AdmittanceGain) : AdmittanceGain :=
  if pressure < epsilon then { g with angular := Mat3.zero } else g

/-- Modelled from the spec: one control cycle of CoPTask::update (absent
CoPTask.cpp).  It evaluates the pressure state machine on the measured normal
force to pick the gain effectively applied this cycle, derives the target
wrench from (TargetForce, TargetCoP) and stores it as the AdmittanceTask
setpoint.  The configured gain member is not mutated — the substitution is
per-cycle.  Returns the new state together with the gain used this cycle. -/
def update (s : CoPTaskState) (measuredWrench : ForceVec) (epsilon : ℚ) :
    CoPTaskState × AdmittanceGain :=
  let pressure := measuredWrench.force.z
  let g := effectiveGain pressure epsilon s.adm.admittance_
  let w := derivedWrench s.targetForce_ s.targetCoP_
  ({ s with adm := AdmittanceTask.setTargetWrench s.adm w }, g)

/-- Modelled from the spec (§4.2, absent CoPTask.cpp): CoPTask::reset()
defers to AdmittanceTask::reset(), then additionally zeroes TargetCoP and
TargetForce. -/
def reset (s : CoPTaskState) (measuredPose : PTransform) : CoPTaskState :=
  { adm := AdmittanceTask.reset s.adm measuredPose,
    targetCoP_ := Vec2.zero, targetForce_ := Vec3.zero }

end CoPTask

/-- Squared Euclidean norm of a 2D vector. -/
def sqNorm2 (v : Vec2) : ℚ := v.x * v.x + v.y * v.y

/-- Squared Euclidean norm of a 3D vector. -/
def sqNorm3 (v : Vec3) : ℚ := v.x * v.x + v.y * v.y + v.z * v.z

/-- Modelled from the spec: the comparison ‖v‖ ≤ t for a 2D vector, encoded
over exact rationals as 0 ≤ t ∧ ‖v‖² ≤ t² (equivalent to the real-norm
comparison, see normLe2_iff_sqrt below). -/
def normLe2 (v : Vec2) (t : ℚ) : Bool :=
  decide (0 ≤ t) && decide (sqNorm2 v ≤ t * t)

/-- Modelled from the spec: the comparison ‖v‖ ≤ t for a 3D vector, encoded
over exact rationals as 0 ≤ t ∧ ‖v‖² ≤ t². -/
def normLe3 (v : Vec3) (t : ℚ) : Bool :=
  decide (0 ≤ t) && decide (sqNorm3 v ≤ t * t)

/-- The configuration entries recognized by CoPTask::buildCompletionCriteria
(CoPTask.h lines 58-66): an optional copError threshold and an optional
force threshold. -/
structure CompletionConfig where
  copError : Option ℚ
  force : Option ℚ
deriving DecidableEq, Repr

namespace CoPTask

/-- Modelled from the spec: the copError criterion,
‖TargetCoP − MeasuredCoP‖ ≤ copError. -/
def copCriterion (s : CoPTaskState) (measuredCoP : Vec2) (t : ℚ) : Bool :=
  normLe2 (Vec2.sub s.targetCoP_ measuredCoP) t

/-- Modelled from the spec: the force criterion,
‖TargetForce − MeasuredForce‖ ≤ force. -/
def forceCriterion (s : CoPTaskState) (measuredForce : Vec3) (t : ℚ) : Bool :=
  normLe3 (Vec3.sub s.targetForce_ measuredForce) t

/-- Modelled from the spec: the completion predicate built by
CoPTask::buildCompletionCriteria (absent CoPTask.cpp) from a configuration:
one criterion per recognized entry present in the configuration, the task
complete only when every present criterion holds.  The predicate reads the
measured CoP and force fresh when evaluated. -/
def buildCompletionCriteria (cfg : CompletionConfig) :
    CoPTaskState → Vec2 → Vec3 → Bool :=
  fun s measuredCoP measuredForce =>
    (match cfg.copError with
     | some t => copCriterion s measuredCoP t
     | none => true) &&
    (match cfg.force with
     | some t => forceCriterion s measuredForce t
     | none => true)

/-- The in-class initializers of CoPTask.h lines 149-150:
targetCoP_ = Vector2d::Zero(), targetForce_ = Vector3d::Zero().  The
inherited AdmittanceTask sub-state is whatever the base constructor built. -/
def init (adm0 : AdmittanceTaskState) : CoPTaskState :=
  { adm := adm0, targetCoP_ := Vec2.zero, targetForce_ := Vec3.zero }

/-- Modelled from the spec (§7, and the throws clause of CoPTask.h lines
39-47; the constructor body is in the absent CoPTask.cpp): construction
fails, synchronously and with no partially constructed task, exactly when
the body controlled through the named surface has no force/torque sensor
attached; otherwise it returns the freshly initialized task state. -/
def construct (adm0 : AdmittanceTaskState) (robot : RobotModel)
    (robotSurface : String) : Except String CoPTaskState :=
  if robot.hasSensor (robot.bodyOfSurface robotSurface) then
    Except.ok (init { adm0 with surfaceName := robotSurface })
  else
    Except.error "No force-torque sensor attached to the control body"

end CoPTask

/-! Concrete fixtures used to evaluate the model on the worked examples of
the specification. -/

/-- A sample configured admittance gain with nonzero blocks. -/
def gainC : AdmittanceGain := ⟨Mat3.one, Mat3.one⟩

/-- A sample AdmittanceTask sub-state over the surface LeftFoot. -/
def admC : AdmittanceTaskState :=
  ⟨"LeftFoot", PTransform.identity, ForceVec.zero, gainC⟩

/-- A robot model whose every body carries a force/torque sensor and whose
every surface pose is the identity transform. -/
def robotC : RobotModel :=
  ⟨fun _ => "l_ankle", fun _ => true, fun _ => PTransform.identity⟩

/-- A robot model with no force/torque sensor anywhere. -/
def robotNoSensor : RobotModel :=
  ⟨fun _ => "l_ankle", fun _ => false, fun _ => PTransform.identity⟩

/-- Task state holding the worked-example targets of spec §8:
targetForce (0,0,100), targetCoP (0.05, 0). -/
def sExample : CoPTaskState :=
  { adm := admC, targetCoP_ := ⟨1/20, 0⟩, targetForce_ := ⟨0, 0, 100⟩ }

/-- Task state holding targetCoP (1, 2) for the frame-conversion example. -/
def sFrame : CoPTaskState :=
  { adm := admC, targetCoP_ := ⟨1, 2⟩, targetForce_ := Vec3.zero }

/-- Task state for the completion-criteria example: targetCoP (3,4),
targetForce (0,0,100). -/
def sC6 : CoPTaskState :=
  { adm := admC, targetCoP_ := ⟨3, 4⟩, targetForce_ := ⟨0, 0, 100⟩ }

/-- A measured wrench with normal force 0 (pressure lost). -/
def mLow : ForceVec := ⟨Vec3.zero, ⟨0, 0, 0⟩⟩

/-- A measured wrench with normal force 10 (pressure present). -/
def mHigh : ForceVec := ⟨Vec3.zero, ⟨0, 0, 10⟩⟩

/-! Helper lemmas about the linear-algebra model. -/

lemma Mat3.mul_assoc (a b c : Mat3) :
    Mat3.mul (Mat3.mul a b) c = Mat3.mul a (Mat3.mul b c) := by
  simp only [Mat3.mul, Mat3.mk.injEq]
  exact ⟨by ring, by ring, by ring, by ring, by ring, by ring, by ring, by ring, by ring⟩

lemma Mat3.one_mul (a : Mat3) : Mat3.mul Mat3.one a = a := by
  cases a
  simp only [Mat3.mul, Mat3.one, Mat3.mk.injEq]
  exact ⟨by ring, by ring, by ring, by ring, by ring, by ring, by ring, by ring, by ring⟩

lemma Mat3.mul_one (a : Mat3) : Mat3.mul a Mat3.one = a := by
  cases a
  simp only [Mat3.mul, Mat3.one, Mat3.mk.injEq]
  exact ⟨by ring, by ring, by ring, by ring, by ring, by ring, by ring, by ring, by ring⟩

lemma Mat3.mulVec_mulVec (a b : Mat3) (v : Vec3) :
    Mat3.mulVec a (Mat3.mulVec b v) = Mat3.mulVec (Mat3.mul a b) v := by
  simp only [Mat3.mulVec, Mat3.mul, Vec3.mk.injEq]
  exact ⟨by ring, by ring, by ring⟩

lemma Mat3.one_mulVec (v : Vec3) : Mat3.mulVec Mat3.one v = v := by
  cases v
  simp only [Mat3.mulVec, Mat3.one, Vec3.mk.injEq]
  exact ⟨by ring, by ring, by ring⟩

lemma Vec3.add_sub_cancel_left (a b : Vec3) : Vec3.sub (Vec3.add a b) a = b := by
  cases a; cases b
  simp only [Vec3.add, Vec3.sub, Vec3.mk.injEq]
  exact ⟨by ring, by ring, by ring⟩

/-- A left inverse of an orthonormal matrix is its transpose: justifies
reading the code's rotation().transpose() as the spec's rotation⁻¹. -/
lemma Mat3.left_inv_eq_transpose {r m : Mat3}
    (horth : Mat3.mul r (Mat3.transpose r) = Mat3.one)
    (hm : Mat3.mul m r = Mat3.one) : m = Mat3.transpose r := by
  calc m = Mat3.mul m Mat3.one := (Mat3.mul_one m).symm
    _ = Mat3.mul m (Mat3.mul r (Mat3.transpose r)) := by rw [horth]
    _ = Mat3.mul (Mat3.mul m r) (Mat3.transpose r) := (Mat3.mul_assoc m r (Mat3.transpose r)).symm
    _ = Mat3.mul Mat3.one (Mat3.transpose r) := by rw [hm]
    _ = Mat3.transpose r := Mat3.one_mul (Mat3.transpose r)

/-- The rational encoding normLe2 agrees with the real Euclidean-norm
comparison ‖v‖ ≤ t used by the specification. -/
lemma normLe2_iff_sqrt (v : Vec2) (t : ℚ) :
    normLe2 v t = true ↔
      Real.sqrt ((v.x : ℝ) ^ 2 + (v.y : ℝ) ^ 2) ≤ (t : ℝ) := by
  rw [Real.sqrt_le_iff]
  simp only [normLe2, Bool.and_eq_true, decide_eq_true_eq, sqNorm2]
  have hc : ((v.x : ℝ) ^ 2 + (v.y : ℝ) ^ 2 ≤ (t : ℝ) ^ 2) ↔
      (v.x * v.x + v.y * v.y ≤ t * t) := by
    rw [show ((v.x : ℝ) ^ 2 + (v.y : ℝ) ^ 2) = ((v.x * v.x + v.y * v.y : ℚ) : ℝ) by push_cast; ring,
      show ((t : ℝ) ^ 2) = ((t * t : ℚ) : ℝ) by push_cast; ring]
    exact Rat.cast_le
  rw [hc]
  constructor
  · rintro ⟨h1, h2⟩
    exact ⟨by exact_mod_cast h1, h2⟩
  · rintro ⟨h1, h2⟩
    exact ⟨by exact_mod_cast h1, h2⟩

/-- The rational encoding normLe3 agrees with the real Euclidean-norm
comparison ‖v‖ ≤ t used by the specification. -/
lemma normLe3_iff_sqrt (v : Vec3) (t : ℚ) :
    normLe3 v t = true ↔
      Real.sqrt ((v.x : ℝ) ^ 2 + (v.y : ℝ) ^ 2 + (v.z : ℝ) ^ 2) ≤ (t : ℝ) := by
  rw [Real.sqrt_le_iff]
  simp only [normLe3, Bool.and_eq_true, decide_eq_true_eq, sqNorm3]
  have hc : ((v.x : ℝ) ^ 2 + (v.y : ℝ) ^ 2 + (v.z : ℝ) ^ 2 ≤ (t : ℝ) ^ 2) ↔
      (v.x * v.x + v.y * v.y + v.z * v.z ≤ t * t) := by
    rw [show ((v.x : ℝ) ^ 2 + (v.y : ℝ) ^ 2 + (v.z : ℝ) ^ 2)
        = ((v.x * v.x + v.y * v.y + v.z * v.z : ℚ) : ℝ) by push_cast; ring,
      show ((t : ℝ) ^ 2) = ((t * t : ℚ) : ℝ) by push_cast; ring]
    exact Rat.cast_le
  rw [hc]
  constructor
  · rintro ⟨h1, h2⟩
    exact ⟨by exact_mod_cast h1, h2⟩
  · rintro ⟨h1, h2⟩
    exact ⟨by exact_mod_cast h1, h2⟩

/-! Claim theorems. -/

/-- Claim C1, evaluated at the failing input: with a prior TargetForce of
(0,0,100) and TargetCoP (0.05, 0), setZeroTargetWrench() zeroes the held
target wrench and TargetCoP but leaves the stored TargetForce at (0,0,100);
the next update() therefore derives a wrench whose force component is
(0,0,100), not zero — contrary to the claim and to the function's documented
purpose of commanding zero wrench. -/
theorem setZeroTargetWrench_stale_targetForce :
    CoPTask.targetWrench (CoPTask.setZeroTargetWrench sExample) = ForceVec.zero ∧
    CoPTask.targetCoP (CoPTask.setZeroTargetWrench sExample) = Vec2.zero ∧
    CoPTask.targetForce (CoPTask.setZeroTargetWrench sExample) = ⟨0, 0, 100⟩ ∧
    CoPTask.targetForce (CoPTask.setZeroTargetWrench sExample) ≠ Vec3.zero ∧
    (CoPTask.targetWrench
      (CoPTask.update (CoPTask.setZeroTargetWrench sExample) mHigh 1).1).force = ⟨0, 0, 100⟩ ∧
    (CoPTask.targetWrench
      (CoPTask.update (CoPTask.setZeroTargetWrench sExample) mHigh 1).1).force ≠ Vec3.zero := by
  decide

/-- Claim C2: for every stored target CoP and every surface-to-world pose
returned by the robot model — whose rotation, being a rotation matrix, has
its transpose as inverse — targetCoPW() returns
X_0_s.translation + X_0_s.rotation⁻¹ · (x, y, 0); m here is any left inverse
of the rotation, hence the unique inverse. -/
theorem targetCoPW_eq_translation_add_rotInv (s : CoPTaskState) (robot : RobotModel)
    (m : Mat3)
    (horth : Mat3.mul (robot.surfacePose s.adm.surfaceName).rotation
      (Mat3.transpose (robot.surfacePose s.adm.surfaceName).rotation) = Mat3.one)
    (hm : Mat3.mul m (robot.surfacePose s.adm.surfaceName).rotation = Mat3.one) :
    CoPTask.targetCoPW s robot =
      Vec3.add (robot.surfacePose s.adm.surfaceName).translation
        (Mat3.mulVec m ⟨s.targetCoP_.x, s.targetCoP_.y, 0⟩) := by
  have h := Mat3.left_inv_eq_transpose horth hm
  simp only [CoPTask.targetCoPW]
  rw [h]

/-- Claim C2 witness: identity surface pose and targetCoP (1,2) give
targetCoPW = (1, 2, 0). -/
theorem targetCoPW_identity_example :
    CoPTask.targetCoPW sFrame robotC = ⟨1, 2, 0⟩ := by
  have h := targetCoPW_eq_translation_add_rotInv sFrame robotC Mat3.one
    (by simp [robotC, PTransform.identity, Mat3.mul, Mat3.transpose, Mat3.one])
    (by simp [robotC, PTransform.identity, Mat3.mul, Mat3.one])
  rw [h]
  simp [robotC, sFrame, PTransform.identity, Mat3.mulVec, Mat3.one, Vec3.add, Vec3.zero]

/-- Claim C3: in every cycle of update(), if the measured normal force is
below epsilon the gain effectively applied has a zero rotational sub-block
(the linear sub-block being the configured one) regardless of the configured
gain; at or above epsilon the configured gain is applied unmodified; the
configured gain member is never mutated by update(), so the substitution is
per-cycle and a later cycle with recovered pressure uses the configured gain
again. -/
theorem update_gain_pressure_state_machine (s : CoPTaskState) (m m2 : ForceVec) (eps : ℚ) :
    (m.force.z < eps →
      ((CoPTask.update s m eps).2).angular = Mat3.zero ∧
      ((CoPTask.update s m eps).2).linear = s.adm.admittance_.linear) ∧
    (eps ≤ m.force.z → (CoPTask.update s m eps).2 = s.adm.admittance_) ∧
    (CoPTask.update s m eps).1.adm.admittance_ = s.adm.admittance_ ∧
    (eps ≤ m2.force.z →
      (CoPTask.update (CoPTask.update s m eps).1 m2 eps).2 = s.adm.admittance_) := by
  refine ⟨fun h => ?_, fun h => ?_, rfl, fun h => ?_⟩
  · simp [CoPTask.update, CoPTask.effectiveGain, if_pos h]
  · simp [CoPTask.update, CoPTask.effectiveGain, if_neg (not_lt.mpr h)]
  · simp [CoPTask.update, CoPTask.effectiveGain, AdmittanceTask.setTargetWrench,
      if_neg (not_lt.mpr h)]

/-- Claim C3 witness: at normal force 0 < epsilon = 1 the rotational
sub-block used is zero; at normal force 10 ≥ 1 the configured gain is used
unmodified, also right after a degenerate cycle. -/
theorem update_gain_pressure_state_machine_witness :
    ((CoPTask.update sExample mLow 1).2).angular = Mat3.zero ∧
    (CoPTask.update sExample mHigh 1).2 = sExample.adm.admittance_ ∧
    (CoPTask.update (CoPTask.update sExample mLow 1).1 mHigh 1).2 =
      sExample.adm.admittance_ :=
  ⟨((update_gain_pressure_state_machine sExample mLow mHigh 1).1 (by norm_num [mLow])).1,
   (update_gain_pressure_state_machine sExample mHigh mHigh 1).2.1 (by norm_num [mHigh]),
   (update_gain_pressure_state_machine sExample mLow mHigh 1).2.2.2 (by norm_num [mHigh])⟩

/-- Claim C4: every derivation of the target wrench in update() yields
force = TargetForce and moment = TargetForce × (TargetCoP_x, TargetCoP_y, 0);
in particular targetForce (0,0,100) with targetCoP (0.05, 0) derives the
wrench with force (0,0,100) and moment (0, 5, 0). -/
theorem update_derives_wrench_from_targets (s : CoPTaskState) (m : ForceVec) (eps : ℚ) :
    (CoPTask.targetWrench (CoPTask.update s m eps).1).force = CoPTask.targetForce s ∧
    (CoPTask.targetWrench (CoPTask.update s m eps).1).couple =
      Vec3.cross (CoPTask.targetForce s)
        ⟨(CoPTask.targetCoP s).x, (CoPTask.targetCoP s).y, 0⟩ ∧
    CoPTask.targetWrench (CoPTask.update sExample mHigh 1).1 = ⟨⟨0, 5, 0⟩, ⟨0, 0, 100⟩⟩ :=
  ⟨rfl, rfl, by
    norm_num [CoPTask.targetWrench, CoPTask.update, AdmittanceTask.setTargetWrench,
      CoPTask.derivedWrench, Vec3.cross, sExample]⟩

/-- Claim C5: after reset(), the target wrench is zero, the target CoP is
(0,0), the target force is (0,0,0) and the target pose equals the currently
measured pose; reset() defers to AdmittanceTask::reset and then zeroes
TargetCoP and TargetForce. -/
theorem reset_zeroes_targets_and_syncs_pose (s : CoPTaskState) (measuredPose : PTransform) :
    CoPTask.targetWrench (CoPTask.reset s measuredPose) = ForceVec.zero ∧
    CoPTask.targetCoP (CoPTask.reset s measuredPose) = Vec2.zero ∧
    CoPTask.targetForce (CoPTask.reset s measuredPose) = Vec3.zero ∧
    (CoPTask.reset s measuredPose).adm.targetPose = measuredPose ∧
    (CoPTask.reset s measuredPose).adm = AdmittanceTask.reset s.adm measuredPose :=
  ⟨rfl, rfl, rfl, rfl, rfl⟩

/-- Claim C6: the completion predicate built from thresholds copError and
force is true iff both ‖targetCoP − measuredCoP‖ ≤ copError and
‖targetForce − measuredForce‖ ≤ force; a single violated threshold makes it
false. -/
theorem buildCompletionCriteria_iff_both_within_bound (e f : ℚ) (s : CoPTaskState)
    (measuredCoP : Vec2) (measuredForce : Vec3) :
    (CoPTask.buildCompletionCriteria ⟨some e, some f⟩ s measuredCoP measuredForce = true ↔
      normLe2 (Vec2.sub (CoPTask.targetCoP s) measuredCoP) e = true ∧
      normLe3 (Vec3.sub (CoPTask.targetForce s) measuredForce) f = true) ∧
    (normLe2 (Vec2.sub (CoPTask.targetCoP s) measuredCoP) e = false →
      CoPTask.buildCompletionCriteria ⟨some e, some f⟩ s measuredCoP measuredForce = false) ∧
    (normLe3 (Vec3.sub (CoPTask.targetForce s) measuredForce) f = false →
      CoPTask.buildCompletionCriteria ⟨some e, some f⟩ s measuredCoP measuredForce = false) := by
  refine ⟨?_, fun h => ?_, fun h => ?_⟩
  · simp [CoPTask.buildCompletionCriteria, CoPTask.copCriterion, CoPTask.forceCriterion,
      CoPTask.targetCoP, CoPTask.targetForce, Bool.and_eq_true]
  · simp only [CoPTask.targetCoP] at h
    simp [CoPTask.buildCompletionCriteria, CoPTask.copCriterion, h]
  · simp only [CoPTask.targetForce] at h
    simp [CoPTask.buildCompletionCriteria, CoPTask.forceCriterion, h]

/-- Claim C6 witness: at targetCoP (3,4), targetForce (0,0,100), thresholds
copError = 5 and force = 10: with measured CoP (0,0) and measured force
(0,0,90) both errors are within bound and the predicate is true; with
measured force (0,0,80) the force threshold alone is violated and the
predicate is false. -/
theorem buildCompletionCriteria_within_bound_witness :
    CoPTask.buildCompletionCriteria ⟨some 5, some 10⟩ sC6 ⟨0, 0⟩ ⟨0, 0, 90⟩ = true ∧
    CoPTask.buildCompletionCriteria ⟨some 5, some 10⟩ sC6 ⟨0, 0⟩ ⟨0, 0, 80⟩ = false :=
  ⟨(buildCompletionCriteria_iff_both_within_bound 5 10 sC6 ⟨0, 0⟩ ⟨0, 0, 90⟩).1.mpr
      ⟨by norm_num [normLe2, sqNorm2, Vec2.sub, CoPTask.targetCoP, sC6],
       by norm_num [normLe3, sqNorm3, Vec3.sub, CoPTask.targetForce, sC6]⟩,
   (buildCompletionCriteria_iff_both_within_bound 5 10 sC6 ⟨0, 0⟩ ⟨0, 0, 80⟩).2.2
      (by norm_num [normLe3, sqNorm3, Vec3.sub, CoPTask.targetForce, sC6])⟩

/-- Claim C7: construction succeeds exactly when the body controlled through
the named surface has a force/torque sensor attached, and fails with an
error — no partially constructed task — exactly when it has none; the check
involves only the robot model queried at construction (update() takes no
robot model and cannot fail by its type). -/
theorem construct_fails_iff_no_sensor (adm0 : AdmittanceTaskState) (robot : RobotModel)
    (surf : String) :
    ((∃ st, CoPTask.construct adm0 robot surf = Except.ok st) ↔
      robot.hasSensor (robot.bodyOfSurface surf) = true) ∧
    ((∃ msg, CoPTask.construct adm0 robot surf = Except.error msg) ↔
      robot.hasSensor (robot.bodyOfSurface surf) = false) := by
  cases hb : robot.hasSensor (robot.bodyOfSurface surf) <;>
    simp [CoPTask.construct, hb]

/-- Claim C8: the targetCoP setter changes only the stored TargetCoP and the
targetForce setter changes only the stored TargetForce; neither touches the
other field, the inherited AdmittanceTask state, or the held target wrench. -/
theorem setters_change_only_their_field (s : CoPTaskState) (v : Vec2) (f : Vec3) :
    CoPTask.targetCoP (CoPTask.setTargetCoP s v) = v ∧
    CoPTask.targetForce (CoPTask.setTargetCoP s v) = CoPTask.targetForce s ∧
    (CoPTask.setTargetCoP s v).adm = s.adm ∧
    CoPTask.targetWrench (CoPTask.setTargetCoP s v) = CoPTask.targetWrench s ∧
    CoPTask.targetForce (CoPTask.setTargetForce s f) = f ∧
    CoPTask.targetCoP (CoPTask.setTargetForce s f) = CoPTask.targetCoP s ∧
    (CoPTask.setTargetForce s f).adm = s.adm ∧
    CoPTask.targetWrench (CoPTask.setTargetForce s f) = CoPTask.targetWrench s :=
  ⟨rfl, rfl, rfl, rfl, rfl, rfl, rfl, rfl⟩

/-- Claim C9: any successfully constructed CoPTask starts with
targetCoP = (0,0) and targetForce = (0,0,0) — the in-class initializers of
CoPTask.h lines 149-150, before any reset, update or setter call. -/
theorem construct_initial_targets_zero (adm0 : AdmittanceTaskState) (robot : RobotModel)
    (surf : String) (st : CoPTaskState)
    (h : CoPTask.construct adm0 robot surf = Except.ok st) :
    CoPTask.targetCoP st = Vec2.zero ∧ CoPTask.targetForce st = Vec3.zero := by
  unfold CoPTask.construct at h
  split at h
  · cases h
    exact ⟨rfl, rfl⟩
  · exact Except.noConfusion h

/-- Claim C9 witness: a concrete construction over a robot with sensors
yields zero initial targets. -/
theorem construct_initial_targets_zero_witness :
    CoPTask.targetCoP (CoPTask.init { admC with surfaceName := "LeftFoot" }) = Vec2.zero ∧
    CoPTask.targetForce (CoPTask.init { admC with surfaceName := "LeftFoot" }) = Vec3.zero :=
  construct_initial_targets_zero admC robotC "LeftFoot"
    (CoPTask.init { admC with surfaceName := "LeftFoot" }) rfl

/-- Claim C10: for every stored target CoP and every surface pose with
orthonormal rotation R, applying the inverse surface transform to
targetCoPW() recovers the surface-frame point exactly:
R · (targetCoPW − translation) = (x, y, 0), height zero in the surface
plane. -/
theorem targetCoPW_roundtrip (s : CoPTaskState) (robot : RobotModel)
    (horth : Mat3.IsOrthonormal (robot.surfacePose s.adm.surfaceName).rotation) :
    Mat3.mulVec (robot.surfacePose s.adm.surfaceName).rotation
      (Vec3.sub (CoPTask.targetCoPW s robot)
        (robot.surfacePose s.adm.surfaceName).translation) =
      ⟨s.targetCoP_.x, s.targetCoP_.y, 0⟩ := by
  simp only [CoPTask.targetCoPW]
  rw [Vec3.add_sub_cancel_left, Mat3.mulVec_mulVec, horth.1, Mat3.one_mulVec]

/-- Claim C10 witness: identity surface pose and targetCoP (1,2) round-trip
back to (1, 2, 0). -/
theorem targetCoPW_roundtrip_witness :
    Mat3.mulVec (robotC.surfacePose sFrame.adm.surfaceName).rotation
      (Vec3.sub (CoPTask.targetCoPW sFrame robotC)
        (robotC.surfacePose sFrame.adm.surfaceName).translation) = ⟨1, 2, 0⟩ := by
  have h := targetCoPW_roundtrip sFrame robotC
    (by
      unfold Mat3.IsOrthonormal
      constructor <;>
        simp [robotC, PTransform.identity, Mat3.mul, Mat3.transpose, Mat3.one])
  rw [h]
  simp [sFrame]
